import Mathlib

/-!
Shallow embedding of the rpi5-fast-irq shared ring-buffer transport.

The definitions below are translated from the repository's sources:
* `src/unnamed/part_003` — `RpiFastIrq.cpp` v2.0 (zero-copy user-space
  listener: `start`, `stop`, `listener_thread_func`);
* `src/CountsPerSecond_Plot/RpiFastIrq.cpp` — earlier copy of the same
  listener whose thread initializes `local_tail` to 0 instead of
  resynchronizing it to `head`;
* `src/kernel_module/rpi_fast_irq.c` — zero-copy kernel producer
  (`gpio_isr` writing the mapped `SharedRingBuffer`);
* `src/unnamed/part_004` — `rpi_fast_irq.c` v1.0 (legacy spinlock
  producer whose ISR evicts the oldest record by advancing `k_tail`);
* `src/Basic_usage/main.cpp` — the downstream `LockFreeRingBuffer`.

Machine integers are modelled as `Nat` with explicit reduction modulo
`2 ^ 32` (`uint32_t` cursors) or `2 ^ 64` (`size_t` cursors) at every
operation where the C code can wrap.
-/

namespace RpiFastIrqModel

/-- Modulus of `uint32_t` arithmetic (the shared cursors `head` and `tail`
and the listener's `local_tail` are `uint32_t`); equals `2 ^ 32`. -/
def U32 : Nat := 4294967296

/-- Modulus of `size_t` arithmetic (the cursors of the downstream
`LockFreeRingBuffer` in `Basic_usage/main.cpp`); equals `2 ^ 64`. -/
def U64 : Nat := 18446744073709551616

/-- `#define KBUF_SIZE 256`, the capacity of the shared ring (identical in
`rpi_fast_irq.c` and the user-space headers). -/
def KBUF_SIZE : Nat := 256

/-- User-space `struct GpioIrqEvent` (`RpiFastIrq.hpp`): `uint64_t
timestamp_ns; uint32_t event_counter; uint32_t pin_state;`. Field values
are carried as `Nat`; the ring-buffer protocol never computes on them. -/
structure GpioIrqEvent where
  timestamp_ns : Nat
  event_counter : Nat
  pin_state : Nat
deriving DecidableEq, Repr, Inhabited

/-- The mapped `struct SharedRingBuffer`: `uint32_t head; uint32_t tail;
GpioIrqEvent events[KBUF_SIZE];`. `events` is total on `Nat`; the code only
ever indexes it with `cursor % KBUF_SIZE`. -/
structure SharedRingState where
  head : Nat
  tail : Nat
  events : Nat → GpioIrqEvent

/-- Producer step of `src/kernel_module/rpi_fast_irq.c` (`gpio_isr`, the
zero-copy variant): read `current_head = shared_buf->head`, write the
payload into `events[current_head % KBUF_SIZE]`, then release-store
`current_head + 1` into `head` (`u32` wraparound). The payload `ev`
abstracts the timestamp/counter fields the ISR fills in. `tail` is not
touched. -/
def gpio_isr (b : SharedRingState) (ev : GpioIrqEvent) : SharedRingState :=
  let current_head := b.head
  { b with
    events := fun i => if i = current_head % KBUF_SIZE then ev else b.events i,
    head := (current_head + 1) % U32 }

/-- A sequence of producer steps: each record of `rs` is published by one
`gpio_isr` invocation, in list order. -/
def publishMany (b : SharedRingState) (rs : List GpioIrqEvent) : SharedRingState :=
  rs.foldl gpio_isr b

/-- Inner drain loop of `RpiFastIrq::listener_thread_func`
(`src/unnamed/part_003`, lines 120-131):

`while (local_tail != current_head) { event_data =
events[local_tail % KBUF_SIZE]; if (m_callback) m_callback(event_data);
local_tail++; }`

`hasCb` is whether `m_callback` has a target; the first component of the
result is the list of events passed to the callback, in invocation order;
the second is the final `local_tail` (incremented with `uint32_t`
wraparound). The loop is indexed by fuel so that the `while` test
`local_tail != current_head` stays exactly as written; `drainLoop_eq`
below shows fuel `U32` always suffices. -/
def drainLoop (events : Nat → GpioIrqEvent) (current_head : Nat) (hasCb : Bool) :
    Nat → Nat → List GpioIrqEvent × Nat
  | local_tail, 0 => ([], local_tail)
  | local_tail, fuel + 1 =>
    if local_tail = current_head then ([], local_tail)
    else
      let event_data := events (local_tail % KBUF_SIZE)
      let rest := drainLoop events current_head hasCb ((local_tail + 1) % U32) fuel
      (if hasCb then event_data :: rest.1 else rest.1, rest.2)

/-- One full drain pass: the inner loop run to completion (fuel `U32`
dominates any cursor distance). -/
def drainPass (events : Nat → GpioIrqEvent) (hasCb : Bool)
    (local_tail current_head : Nat) : List GpioIrqEvent × Nat :=
  drainLoop events current_head hasCb local_tail U32

/-- Number of records outstanding between the cursors: `head - tail`
computed in `uint32_t` arithmetic, i.e. `(head - tail) mod 2 ^ 32`. -/
def dist (tail head : Nat) : Nat := (head + U32 - tail) % U32

/-- The records a drain starting at `tail` reads when `d` are available:
slot `(tail + i) mod 2 ^ 32 mod KBUF_SIZE` for `i = 0, 1, ..., d - 1`. -/
def deliveredList (events : Nat → GpioIrqEvent) (tail d : Nat) : List GpioIrqEvent :=
  (List.range d).map fun i => events ((tail + i) % U32 % KBUF_SIZE)

theorem dist_self (t : Nat) : dist t t = 0 := by
  simp only [dist, U32]
  omega

theorem dist_pos (t h : Nat) (ht : t < U32) (hh : h < U32) (hne : t ≠ h) :
    0 < dist t h := by
  simp only [dist, U32] at *
  omega

theorem dist_step (t h : Nat) (ht : t < U32) (hh : h < U32) (hne : t ≠ h) :
    dist ((t + 1) % U32) h + 1 = dist t h := by
  simp only [dist, U32] at *
  omega

theorem dist_lt (t h : Nat) : dist t h < U32 := by
  simp only [dist, U32]
  omega

theorem deliveredList_succ (events : Nat → GpioIrqEvent) (t d : Nat) (ht : t < U32) :
    deliveredList events t (d + 1) =
      events (t % KBUF_SIZE) :: deliveredList events ((t + 1) % U32) d := by
  simp only [deliveredList, List.range_succ_eq_map, List.map_cons, List.map_map]
  refine congrArg₂ List.cons ?_ ?_
  · rw [Nat.add_zero, Nat.mod_eq_of_lt ht]
  · refine List.map_congr_left fun i _ => ?_
    have : ((t + 1) % U32 + i) % U32 = (t + (i + 1)) % U32 := by
      simp only [U32]
      omega
    simp [Function.comp, this]

/-- Adequacy of the fuel-indexed loop: whenever the fuel bounds the cursor
distance, the loop returns the full available window — the callback is
invoked once per outstanding record, in increasing-count order, and the
local tail finishes at `current_head`. -/
theorem drainLoop_eq (events : Nat → GpioIrqEvent) (current_head : Nat) (cb : Bool) :
    ∀ fuel local_tail, local_tail < U32 → current_head < U32 →
      dist local_tail current_head ≤ fuel →
      drainLoop events current_head cb local_tail fuel =
        ((if cb then deliveredList events local_tail (dist local_tail current_head)
          else []), current_head) := by
  intro fuel
  induction fuel with
  | zero =>
    intro t ht hh hd
    have h0 : dist t current_head = 0 := Nat.le_zero.mp hd
    have hth : t = current_head := by
      simp only [dist, U32] at h0 ht hh
      omega
    subst hth
    simp [drainLoop, h0, deliveredList]
  | succ n ih =>
    intro t ht hh hd
    by_cases he : t = current_head
    · subst he
      simp [drainLoop, dist_self t, deliveredList]
    · have hstep := dist_step t current_head ht hh he
      have ht' : (t + 1) % U32 < U32 := by
        simp only [U32]
        omega
      have hd' : dist ((t + 1) % U32) current_head ≤ n := by omega
      rw [drainLoop, if_neg he, ih ((t + 1) % U32) ht' hh hd']
      have hrw : dist t current_head = dist ((t + 1) % U32) current_head + 1 := by omega
      rw [hrw, deliveredList_succ events t _ ht]
      cases cb <;> simp

theorem publishMany_nil (b : SharedRingState) : publishMany b [] = b := rfl

theorem publishMany_cons (b : SharedRingState) (r : GpioIrqEvent) (rs : List GpioIrqEvent) :
    publishMany b (r :: rs) = publishMany (gpio_isr b r) rs := rfl

/-- A `uint32_t` cursor reduced modulo the capacity is insensitive to the
intermediate `mod 2 ^ 32`, because `KBUF_SIZE` divides `2 ^ 32`. -/
theorem mod_u32_mod_kbuf (x k : Nat) :
    (x % U32 + k) % KBUF_SIZE = (x + k) % KBUF_SIZE := by
  simp only [U32, KBUF_SIZE]
  omega

theorem publishMany_tail (rs : List GpioIrqEvent) :
    ∀ b : SharedRingState, (publishMany b rs).tail = b.tail := by
  induction rs with
  | nil => intro b; rfl
  | cons r rs ih => intro b; rw [publishMany_cons, ih]; rfl

theorem publishMany_head (rs : List GpioIrqEvent) :
    ∀ b : SharedRingState, b.head < U32 →
      (publishMany b rs).head = (b.head + rs.length) % U32 := by
  induction rs with
  | nil =>
    intro b hb
    simp [publishMany_nil, Nat.mod_eq_of_lt hb]
  | cons r rs ih =>
    intro b hb
    rw [publishMany_cons, ih _ (by simp only [gpio_isr, U32]; omega)]
    show ((b.head + 1) % U32 + rs.length) % U32 = (b.head + (r :: rs).length) % U32
    simp only [List.length_cons, U32]
    omega

/-- Frame property of the producer: a slot no publish targets keeps its
contents. The `k`-th publish of `rs` writes slot `(b.head + k) % KBUF_SIZE`. -/
theorem publishMany_untouched (rs : List GpioIrqEvent) :
    ∀ (b : SharedRingState) (j : Nat),
      (∀ k, k < rs.length → j ≠ (b.head + k) % KBUF_SIZE) →
      (publishMany b rs).events j = b.events j := by
  induction rs with
  | nil => intro b j _; rfl
  | cons r rs ih =>
    intro b j hj
    rw [publishMany_cons]
    rw [ih (gpio_isr b r) j ?_]
    · have h0 : j ≠ b.head % KBUF_SIZE := by
        have := hj 0 (by simp)
        simpa using this
      simp [gpio_isr, h0]
    · intro k hk
      show j ≠ ((b.head + 1) % U32 + k) % KBUF_SIZE
      have hrw : ((b.head + 1) % U32 + k) % KBUF_SIZE = (b.head + (k + 1)) % KBUF_SIZE := by
        rw [mod_u32_mod_kbuf]
        ring_nf
      rw [hrw]
      exact hj (k + 1) (by simp only [List.length_cons]; omega)

/-- After publishing at most a buffer's worth of records into a ring whose
producer cursor starts at `b.head`, slot `(b.head + i) % KBUF_SIZE` holds
the `i`-th published record: no publish of the batch overwrites another. -/
theorem publishMany_events_get (rs : List GpioIrqEvent) :
    ∀ (b : SharedRingState) (i : Nat), b.head < U32 → rs.length ≤ KBUF_SIZE →
      i < rs.length →
      (publishMany b rs).events ((b.head + i) % KBUF_SIZE) = rs.getD i default := by
  induction rs with
  | nil =>
    intro b i _ _ hi
    simp at hi
  | cons r rs ih
  =>
    intro b i hb hlen hi
    rw [publishMany_cons]
    match i with
    | 0 =>
      rw [publishMany_untouched rs (gpio_isr b r) _ ?_]
      · simp [gpio_isr]
      · intro k hk
        show (b.head + 0) % KBUF_SIZE ≠ ((b.head + 1) % U32 + k) % KBUF_SIZE
        rw [mod_u32_mod_kbuf]
        simp only [List.length_cons, KBUF_SIZE] at hlen hk ⊢
        omega
    | i + 1 =>
      have hb' : (gpio_isr b r).head < U32 := by
        simp only [gpio_isr, U32]
        omega
      have := ih (gpio_isr b r) i hb' (by simp only [List.length_cons] at hlen; omega)
        (by simp only [List.length_cons] at hi; omega)
      have hrw : ((gpio_isr b r).head + i) % KBUF_SIZE = (b.head + (i + 1)) % KBUF_SIZE := by
        show ((b.head + 1) % U32 + i) % KBUF_SIZE = (b.head + (i + 1)) % KBUF_SIZE
        rw [mod_u32_mod_kbuf]
        ring_nf
      rw [hrw] at this
      rw [this]
      rfl

/-- Startup of the listener thread in `src/unnamed/part_003` (lines
103-105): `uint32_t local_tail = load_acquire(&head); store_release(&tail,
local_tail);` — the local tail is resynchronized to the current head and
published, before the wait/drain loop is entered. Returns the initial
`local_tail` together with the shared state after the store. -/
def listener_startup (b : SharedRingState) : Nat × SharedRingState :=
  (b.head, { b with tail := b.head })

/-- Startup of the listener thread in
`src/CountsPerSecond_Plot/RpiFastIrq.cpp` (line 98): `uint32_t local_tail
= 0;` — no resynchronization, no store to the shared `tail`. -/
def plot_listener_initial_tail : Nat := 0

/-- Shared-state effect of one drain pass of the listener (the consumer):
only `tail` is stored (release-published as the final `local_tail`);
`head` is only acquire-loaded and the slots are only read. -/
def listener_drain_step (b : SharedRingState) (hasCb : Bool) : SharedRingState :=
  { b with tail := (drainPass b.events hasCb b.tail b.head).2 }

/-- Kernel state of the legacy (v1.0, `src/unnamed/part_004`) module:
`k_buffer[KBUF_SIZE]` with wrapped *indices* `k_head`, `k_tail` (always
reduced `% KBUF_SIZE`) and the `u32` counter `total_interrupts`. -/
structure KernelV1State where
  k_buffer : Nat → GpioIrqEvent
  k_head : Nat
  k_tail : Nat
  total_interrupts : Nat

/-- `gpio_isr` of the legacy module (`src/unnamed/part_004`, lines 86-112):
under the spinlock it increments `total_interrupts`, fills
`k_buffer[k_head]`, advances `k_head = (k_head + 1) % KBUF_SIZE`, and on
overflow (`k_head == k_tail`) evicts the oldest record by advancing
`k_tail` itself — the producer writing the consumer cursor. -/
def gpio_isr_v1 (s : KernelV1State) (ts state : Nat) : KernelV1State :=
  let total := (s.total_interrupts + 1) % U32
  let buf := fun i =>
    if i = s.k_head then
      { timestamp_ns := ts, event_counter := total, pin_state := state }
    else s.k_buffer i
  let head := (s.k_head + 1) % KBUF_SIZE
  let tail := if head = s.k_tail then (s.k_tail + 1) % KBUF_SIZE else s.k_tail
  { k_buffer := buf, k_head := head, k_tail := tail, total_interrupts := total }

/-! ### C struct layouts of the wire contract

Offsets and sizes follow the C rules on the target (arm64 Linux, where
both the kernel module and the user-space library are compiled): each
field is placed at its offset rounded up to its alignment, the struct is
padded to a multiple of its largest field alignment; `u64`/`uint64_t` is
8 bytes aligned 8, `u32`/`uint32_t` is 4 bytes aligned 4, an array has
the size and alignment of its element times the length. -/

/-- One declared C struct field: its name, byte size and alignment. -/
structure CField where
  cname : String
  csize : Nat
  calign : Nat
deriving DecidableEq, Repr

/-- Round `off` up to the next multiple of `a`. -/
def alignUp (off a : Nat) : Nat := ((off + a - 1) / a) * a

/-- Offsets of a field list laid out from byte `off`: each entry is
`(name, offset, size)`. -/
def fieldOffsets : List CField → Nat → List (String × Nat × Nat)
  | [], _ => []
  | f :: fs, off =>
    let o := alignUp off f.calign
    (f.cname, o, f.csize) :: fieldOffsets fs (o + f.csize)

/-- First byte past the laid-out fields. -/
def fieldsEnd : List CField → Nat → Nat
  | [], off => off
  | f :: fs, off => fieldsEnd fs (alignUp off f.calign + f.csize)

/-- Alignment of the whole struct: the largest field alignment. -/
def structAlignOf (fs : List CField) : Nat := fs.foldl (fun a f => max a f.calign) 1

/-- The layout of a struct: every field with its byte offset and size. -/
def structLayout (fs : List CField) : List (String × Nat × Nat) := fieldOffsets fs 0

/-- `sizeof` the struct: end of the fields padded to the struct
alignment. -/
def structSize (fs : List CField) : Nat := alignUp (fieldsEnd fs 0) (structAlignOf fs)

/-- `struct GpioIrqEvent` of `src/kernel_module/rpi_fast_irq.c` (lines
71-75): `u64 timestamp_ns; u32 event_counter;` — the `u32 pin_state`
field is commented out there. -/
def kernel_GpioIrqEvent_fields : List CField :=
  [{ cname := "timestamp_ns", csize := 8, calign := 8 },
   { cname := "event_counter", csize := 4, calign := 4 }]

/-- `struct GpioIrqEvent` of the user-space headers
(`src/CountsPerSecond/RpiFastIrq.hpp` lines 12-16,
`src/CountsPerSecond_Plot/RpiFastIrq.hpp` lines 29-33): `uint64_t
timestamp_ns; uint32_t event_counter; uint32_t pin_state;`. -/
def user_GpioIrqEvent_fields : List CField :=
  [{ cname := "timestamp_ns", csize := 8, calign := 8 },
   { cname := "event_counter", csize := 4, calign := 4 },
   { cname := "pin_state", csize := 4, calign := 4 }]

/-- `struct SharedRingBuffer` of `src/kernel_module/rpi_fast_irq.c`
(lines 80-84): `u32 head; u32 tail; struct GpioIrqEvent
events[KBUF_SIZE];`. -/
def kernel_SharedRingBuffer_fields : List CField :=
  [{ cname := "head", csize := 4, calign := 4 },
   { cname := "tail", csize := 4, calign := 4 },
   { cname := "events", csize := KBUF_SIZE * structSize kernel_GpioIrqEvent_fields,
     calign := 8 }]

/-- `struct SharedRingBuffer` of `src/CountsPerSecond/RpiFastIrq.hpp`
(lines 21-25): `uint32_t head; uint32_t tail; GpioIrqEvent
events[KBUF_SIZE];`. -/
def user_cps_SharedRingBuffer_fields : List CField :=
  [{ cname := "head", csize := 4, calign := 4 },
   { cname := "tail", csize := 4, calign := 4 },
   { cname := "events", csize := KBUF_SIZE * structSize user_GpioIrqEvent_fields,
     calign := 8 }]

/-- `struct SharedRingBuffer` of `src/CountsPerSecond_Plot/RpiFastIrq.hpp`
(lines 37-41): `uint32_t head; uint32_t tail;` — the `events[KBUF_SIZE]`
array is commented out there. -/
def plot_SharedRingBuffer_fields : List CField :=
  [{ cname := "head", csize := 4, calign := 4 },
   { cname := "tail", csize := 4, calign := 4 }]

/-- `sizeof(SharedRingBuffer)` as the user-space library compiles it
(the header with the `events` array, which `RpiFastIrq.cpp` dereferences):
8 cursor bytes plus 256 events of 16 bytes. -/
def sizeof_SharedRingBuffer : Nat := structSize user_cps_SharedRingBuffer_fields

/-! ### Listener lifecycle (`RpiFastIrq::start` / `RpiFastIrq::stop`,
`src/unnamed/part_003` lines 38-88) -/

/-- Value of the `SharedRingBuffer*` member: `nullptr`, `MAP_FAILED`, or a
successful mapping. -/
inductive Ptr where
  | null : Ptr
  | mapFailed : Ptr
  | mapped : Nat → Ptr
deriving DecidableEq, Repr

/-- The members of class `RpiFastIrq` (`RpiFastIrq.hpp`). `m_callback`
records whether the stored `std::function` has a target;
`m_thread_joinable` whether `m_listener_thread` is joinable. -/
structure ListenerState where
  m_device_path : String
  m_fd : Int
  m_shared_buf : Ptr
  m_mmap_size : Nat
  m_running : Bool
  m_callback : Bool
  m_thread_joinable : Bool
deriving DecidableEq, Repr

/-- The constructor `RpiFastIrq::RpiFastIrq(device_path)`: `m_fd(-1),
m_shared_buf(nullptr), m_mmap_size(0), m_running(false)`; the callback is
an empty `std::function` and no thread exists. -/
def RpiFastIrq_new (device_path : String) : ListenerState :=
  { m_device_path := device_path, m_fd := -1, m_shared_buf := Ptr.null,
    m_mmap_size := 0, m_running := false, m_callback := false,
    m_thread_joinable := false }

/-- Outcomes of the system calls `start` makes: `open_result` is `some fd`
(with `fd ≥ 0`) on success and `none` when `::open` fails returning `-1`;
`mmap_result` is `some addr` on success and `none` for `MAP_FAILED`. -/
structure SysEnv where
  open_result : Option Nat
  page_size : Nat
  mmap_result : Option Nat

/-- The diagnostics `start` prints to `std::cerr`, one tag per distinct
message. -/
inductive LogMsg where
  | alreadyRunning : LogMsg
  | openFailed : LogMsg
  | mmapFailed : LogMsg
deriving DecidableEq, Repr

/-- Resource actions the lifecycle functions perform, for tracking
acquisition/release. -/
inductive Action where
  | closeDevice : Action
  | munmapRegion : Action
  | joinThread : Action
deriving DecidableEq, Repr

/-- `m_mmap_size = (sizeof(SharedRingBuffer) + page_size - 1) &
~(page_size - 1)` with 64-bit `size_t`: the complement of `page_size - 1`
is `2 ^ 64 - page_size`. -/
def page_align (x page_size : Nat) : Nat :=
  Nat.land (x + page_size - 1) (U64 - page_size)

/-- `RpiFastIrq::start` (`src/unnamed/part_003`, lines 38-68). Returns the
`bool` result, the object state after the call, and the diagnostics
printed. Already running: return `false` untouched. `::open` failure:
`m_fd` holds the returned `-1`, return `false`. `mmap` failure: `m_fd` is
closed and reset to `-1`, `m_shared_buf` holds `MAP_FAILED`, return
`false`. Otherwise store the callback, set `m_running`, spawn the
listener thread, return `true`. -/
def start (s : ListenerState) (user_callback : Bool) (env : SysEnv) :
    Bool × ListenerState × List LogMsg :=
  if s.m_running then (false, s, [LogMsg.alreadyRunning])
  else
    match env.open_result with
    | none => (false, { s with m_fd := -1 }, [LogMsg.openFailed])
    | some fd =>
      let s1 := { s with m_fd := Int.ofNat fd }
      let sz := page_align sizeof_SharedRingBuffer env.page_size
      match env.mmap_result with
      | none =>
        (false,
         { s1 with m_mmap_size := sz, m_shared_buf := Ptr.mapFailed, m_fd := -1 },
         [LogMsg.mmapFailed])
      | some addr =>
        (true,
         { s1 with m_mmap_size := sz, m_shared_buf := Ptr.mapped addr,
                   m_callback := user_callback, m_running := true,
                   m_thread_joinable := true },
         [])

/-- `RpiFastIrq::stop` (`src/unnamed/part_003`, lines 70-88), also run by
the destructor: `if (!m_running) return;` then clear the flag, join the
thread if joinable, `munmap` if `m_shared_buf` is a real mapping (neither
`nullptr` nor `MAP_FAILED`) and null it, `close` the descriptor if
`m_fd >= 0` and reset it to `-1`. Returns the state and the release
actions performed. -/
def stop (s : ListenerState) : ListenerState × List Action :=
  if s.m_running = false then (s, [])
  else
    let s1 := { s with m_running := false }
    let p1 : ListenerState × List Action :=
      if s1.m_thread_joinable then
        ({ s1 with m_thread_joinable := false }, [Action.joinThread])
      else (s1, [])
    let p2 : ListenerState × List Action :=
      match p1.1.m_shared_buf with
      | Ptr.mapped _ => ({ p1.1 with m_shared_buf := Ptr.null }, p1.2 ++ [Action.munmapRegion])
      | _ => (p1.1, p1.2)
    if p2.1.m_fd ≥ 0 then ({ p2.1 with m_fd := -1 }, p2.2 ++ [Action.closeDevice])
    else (p2.1, p2.2)

/-! ### Downstream SPSC queue (`LockFreeRingBuffer`,
`src/Basic_usage/main.cpp` lines 18-57) -/

/-- `template <typename T, size_t Size> class LockFreeRingBuffer`:
`T m_data[Size]` with `size_t` cursors `m_head` (producer) and `m_tail`
(consumer). `m_data` is total on `Nat`; the code indexes it with
`cursor % Size`. -/
structure LockFreeRingBuffer (T : Type) (Size : Nat) where
  m_data : Nat → T
  m_head : Nat
  m_tail : Nat

/-- `push`: load `current_head`; if `current_head - m_tail >= Size`
(`size_t` subtraction, i.e. modulo `2 ^ 64`) the buffer is full and the
item is dropped, returning `false`; otherwise store the item at
`current_head % Size` and release-store `current_head + 1` into
`m_head`, returning `true`. -/
def LockFreeRingBuffer.push {T : Type} {Size : Nat}
    (b : LockFreeRingBuffer T Size) (item : T) : Bool × LockFreeRingBuffer T Size :=
  let current_head := b.m_head
  if Size ≤ (current_head + U64 - b.m_tail) % U64 then (false, b)
  else
    (true,
     { b with
       m_data := fun i => if i = current_head % Size then item else b.m_data i,
       m_head := (current_head + 1) % U64 })

/-- `pop`: load `current_tail`; if it equals `m_head` the buffer is empty
and `pop` returns `false` (here `none`); otherwise read the item at
`current_tail % Size` and release-store `current_tail + 1` into
`m_tail`. -/
def LockFreeRingBuffer.pop {T : Type} {Size : Nat}
    (b : LockFreeRingBuffer T Size) : Option T × LockFreeRingBuffer T Size :=
  let current_tail := b.m_tail
  if current_tail = b.m_head then (none, b)
  else
    (some (b.m_data (current_tail % Size)),
     { b with m_tail := (current_tail + 1) % U64 })

/-! ### Concrete fixtures used by witnesses and counterexamples -/

/-- A ring that has seen no interrupt: both cursors 0. -/
def emptyRing : SharedRingState := { head := 0, tail := 0, events := fun _ => default }

/-- A record with sequence number `n` and an arbitrary distinct
timestamp. -/
def seqEvent (n : Nat) : GpioIrqEvent :=
  { timestamp_ns := 1000 + n, event_counter := n, pin_state := 0 }

/-- Ten records with sequence 1..10 (the spec's concrete scenario). -/
def tenRecords : List GpioIrqEvent :=
  [seqEvent 1, seqEvent 2, seqEvent 3, seqEvent 4, seqEvent 5,
   seqEvent 6, seqEvent 7, seqEvent 8, seqEvent 9, seqEvent 10]

/-- Five records published before the listener starts. -/
def fiveRecords : List GpioIrqEvent :=
  [seqEvent 1, seqEvent 2, seqEvent 3, seqEvent 4, seqEvent 5]

/-- The shared ring just before `start`: five records already published. -/
def preStartRing : SharedRingState := publishMany emptyRing fiveRecords

/-- A legacy kernel ring one insertion away from full. -/
def fullV1Ring : KernelV1State :=
  { k_buffer := fun _ => default, k_head := 255, k_tail := 0, total_interrupts := 0 }

/-- A ring whose cursors sit three steps before the `uint32_t` wrap. -/
def wrapRing : SharedRingState :=
  { head := 4294967293, tail := 4294967293, events := fun _ => default }

/-- Seven records, enough to carry the cursors across `2 ^ 32`. -/
def sevenRecords : List GpioIrqEvent :=
  [seqEvent 11, seqEvent 12, seqEvent 13, seqEvent 14, seqEvent 15,
   seqEvent 16, seqEvent 17]

/-! ### Claim theorems -/

/-- C1: in one drain pass that observed head `current_head` with local
tail `local_tail`, the inner loop invokes the user callback exactly
`(current_head - local_tail) mod 2 ^ 32` times — once per record, in
order of increasing count `local_tail, local_tail + 1, ...`, reading slot
`count % KBUF_SIZE` for each, with no duplicates and no omissions — and
leaves the local tail equal to the observed head. -/
theorem drain_pass_exact (events : Nat → GpioIrqEvent) (local_tail current_head : Nat)
    (ht : local_tail < U32) (hh : current_head < U32) :
    drainPass events true local_tail current_head =
      (deliveredList events local_tail (dist local_tail current_head), current_head) := by
  have h := drainLoop_eq events current_head true U32 local_tail ht hh
    (le_of_lt (dist_lt _ _))
  simpa [drainPass] using h

/-- C1 witness: with `KBUF_SIZE = 256`, tail 0 and head 10 holding the
records with sequence 1..10, the pass delivers exactly those ten records
in order 1, 2, ..., 10. -/
theorem drain_pass_exact_witness :
    drainPass (publishMany emptyRing tenRecords).events true 0 10 =
      (tenRecords, 10) := by
  have h := drain_pass_exact (publishMany emptyRing tenRecords).events 0 10
    (by decide) (by decide)
  exact h.trans (by decide)

/-- C2: evaluation at the failing input. After five records are published
and before any drain, the part_003 listener startup resynchronizes
`local_tail` to the current head (and publishes it), so its first drain
pass invokes the callback zero times; the CountsPerSecond_Plot listener
starts its local tail at 0 instead, and its first drain pass invokes the
callback five times — the backlog is replayed, not dropped. -/
theorem startup_resync_drops_backlog_plot_does_not :
    (drainPass (listener_startup preStartRing).2.events true
        (listener_startup preStartRing).1 (listener_startup preStartRing).2.head).1 = [] ∧
    (listener_startup preStartRing).2.tail = preStartRing.head ∧
    (drainPass preStartRing.events true plot_listener_initial_tail
        preStartRing.head).1.length = 5 := by
  decide

/-- C3 (amended): in the zero-copy variant every producer step
(`gpio_isr` of `src/kernel_module/rpi_fast_irq.c`) leaves `tail`
untouched and every consumer step (the listener's startup
resynchronization and its drain pass) leaves `head` and the slots
untouched — each cursor has a single writer. In the legacy variant
(`src/unnamed/part_004`) the producer's ISR preserves `k_tail` except
when its insertion fills the buffer, where it advances `k_tail` by one
(evicting the oldest unread record). -/
theorem single_writer_per_variant :
    (∀ (b : SharedRingState) (ev : GpioIrqEvent), (gpio_isr b ev).tail = b.tail) ∧
    (∀ b : SharedRingState, (listener_startup b).2.head = b.head ∧
      ∀ j, (listener_startup b).2.events j = b.events j) ∧
    (∀ (b : SharedRingState) (cb : Bool), (listener_drain_step b cb).head = b.head ∧
      ∀ j, (listener_drain_step b cb).events j = b.events j) ∧
    (∀ (s : KernelV1State) (ts st : Nat),
      (gpio_isr_v1 s ts st).k_tail =
        if (s.k_head + 1) % KBUF_SIZE = s.k_tail then (s.k_tail + 1) % KBUF_SIZE
        else s.k_tail) :=
  ⟨fun _ _ => rfl, fun _ => ⟨rfl, fun _ => rfl⟩, fun _ _ => ⟨rfl, fun _ => rfl⟩,
   fun _ _ _ => rfl⟩

/-- C3 counterexample: a producer step of the legacy variant writes the
tail cursor. At a full legacy ring (`k_head = 255`, `k_tail = 0`), one
`gpio_isr` invocation changes `k_tail` — so it is not true that no
producer step ever writes tail. -/
theorem legacy_producer_writes_tail :
    (gpio_isr_v1 fullV1Ring 0 0).k_tail ≠ fullV1Ring.k_tail := by
  decide

/-- C4: the cursors are unbounded `u32` counters, the slot is the count
modulo `KBUF_SIZE`, and the loop-exit test is `tail != head`; for any
starting cursor value and any batch of at most `KBUF_SIZE` records, the
drain after publishing delivers exactly the published records, in order,
and this holds including when the `u32` counters wrap past `2 ^ 32 - 1`. -/
theorem wraparound_drain_exact (b : SharedRingState) (rs : List GpioIrqEvent)
    (hb : b.head < U32) (hsync : b.tail = b.head) (hlen : rs.length ≤ KBUF_SIZE) :
    drainPass (publishMany b rs).events true b.tail (publishMany b rs).head =
      (rs, (b.head + rs.length) % U32) := by
  have hhead := publishMany_head rs b hb
  have hh' : (publishMany b rs).head < U32 := by
    rw [hhead]; exact Nat.mod_lt _ (by simp [U32])
  have ht' : b.tail < U32 := hsync ▸ hb
  have hdist : dist b.tail (publishMany b rs).head = rs.length := by
    rw [hhead, hsync]
    simp only [dist, U32, KBUF_SIZE] at *
    omega
  have h := drainLoop_eq (publishMany b rs).events (publishMany b rs).head true U32
    b.tail ht' hh' (le_of_lt (dist_lt _ _))
  rw [drainPass, h, if_pos rfl, hdist, hhead]
  refine congrArg₂ Prod.mk ?_ rfl
  refine List.ext_getElem (by simp [deliveredList]) ?_
  intro i h1 h2
  simp only [deliveredList, List.getElem_map, List.getElem_range]
  have hmm : (b.tail + i) % U32 % KBUF_SIZE = (b.head + i) % KBUF_SIZE := by
    rw [hsync]
    exact Nat.mod_mod_of_dvd _ (by norm_num [KBUF_SIZE, U32])
  rw [hmm, publishMany_events_get rs b i hb hlen (by simpa [deliveredList] using h1)]
  exact List.getD_eq_getElem rs default h2

/-- C4 witness: cursors three steps before `2 ^ 32` receive seven
records; the drain crosses the wrap and delivers all seven in order,
ending with both cursors at 4. -/
theorem wraparound_drain_exact_witness :
    drainPass (publishMany wrapRing sevenRecords).events true wrapRing.tail
        (publishMany wrapRing sevenRecords).head = (sevenRecords, 4) := by
  have h := wraparound_drain_exact wrapRing sevenRecords (by decide) rfl (by decide)
  exact h.trans (by decide)

/-- C5: `start` failure atomicity, for a listener whose idle state holds
no resources (`m_fd = -1`, no joinable thread — the constructor's and
`stop`'s postcondition). Already running: `false` with no state change.
Open failure: `false` with no state change (the code stores `::open`'s
`-1` back into the already `-1` descriptor). Mapping failure: the opened
handle is closed and reset to `-1` before returning `false`, leaving no
handle, no mapping (`m_shared_buf` holds `MAP_FAILED`, not a mapping), no
thread and not running. -/
theorem start_failure_atomic (s : ListenerState) (cb : Bool) (env : SysEnv)
    (hfd : s.m_fd = -1) (hth : s.m_thread_joinable = false) :
    (s.m_running = true → start s cb env = (false, s, [LogMsg.alreadyRunning])) ∧
    (s.m_running = false → env.open_result = none →
      start s cb env = (false, s, [LogMsg.openFailed])) ∧
    (∀ fd, s.m_running = false → env.open_result = some fd → env.mmap_result = none →
      start s cb env =
        (false,
         { s with m_fd := -1, m_shared_buf := Ptr.mapFailed,
                  m_mmap_size := page_align sizeof_SharedRingBuffer env.page_size },
         [LogMsg.mmapFailed]) ∧
      ((start s cb env).2.1.m_fd = -1 ∧
       (start s cb env).2.1.m_running = false ∧
       (start s cb env).2.1.m_thread_joinable = false ∧
       ∀ a, (start s cb env).2.1.m_shared_buf ≠ Ptr.mapped a)) := by
  obtain ⟨path, fd0, buf, sz0, run, cb0, thj⟩ := s
  simp only at hfd hth
  subst hfd hth
  refine ⟨fun hrun => ?_, fun hrun hopen => ?_, fun fd hrun hopen hmmap => ?_⟩
  · simp only at hrun
    subst hrun
    simp [start]
  · simp only at hrun
    subst hrun
    simp [start, hopen]
  · simp only at hrun
    subst hrun
    refine ⟨by simp [start, hopen, hmmap], ?_⟩
    simp [start, hopen, hmmap]

/-- C5 witness: a fresh listener whose device open fails: `start` returns
`false`, prints the open diagnostic, and the state is unchanged. -/
theorem start_failure_atomic_witness :
    start (RpiFastIrq_new "/dev/rp1_gpio_irq") true
        { open_result := none, page_size := 4096, mmap_result := none } =
      (false, RpiFastIrq_new "/dev/rp1_gpio_irq", [LogMsg.openFailed]) :=
  (start_failure_atomic (RpiFastIrq_new "/dev/rp1_gpio_irq") true
    { open_result := none, page_size := 4096, mmap_result := none } rfl rfl).2.1
    rfl rfl

theorem stop_not_running (s : ListenerState) (h : s.m_running = false) :
    stop s = (s, []) := by
  simp [stop, h]

theorem stop_result_not_running (s : ListenerState) :
    (stop s).1.m_running = false := by
  obtain ⟨path, fd0, buf, sz0, run, cb0, thj⟩ := s
  cases run
  · simp [stop]
  · cases thj <;> cases buf <;> by_cases hfd : (0:Int) ≤ fd0 <;> simp [stop, hfd]

/-- C6: `stop` is idempotent. When not running it is a no-op performing
no release action; the state after two consecutive calls equals the state
after one, and the second call performs no action at all; one call joins
the thread, unmaps the region and closes the handle at most once each —
and exactly once each when the running listener actually holds them. -/
theorem stop_idempotent (s : ListenerState) :
    (s.m_running = false → stop s = (s, [])) ∧
    stop (stop s).1 = ((stop s).1, []) ∧
    (stop s).2.count Action.joinThread ≤ 1 ∧
    (stop s).2.count Action.munmapRegion ≤ 1 ∧
    (stop s).2.count Action.closeDevice ≤ 1 ∧
    (s.m_running = true → s.m_thread_joinable = true →
      (stop s).2.count Action.joinThread = 1) ∧
    (s.m_running = true → (∀ a, s.m_shared_buf = Ptr.mapped a →
      (stop s).2.count Action.munmapRegion = 1)) ∧
    (s.m_running = true → 0 ≤ s.m_fd →
      (stop s).2.count Action.closeDevice = 1) := by
  refine ⟨stop_not_running s, stop_not_running _ (stop_result_not_running s),
    ?_, ?_, ?_, ?_, ?_, ?_⟩ <;>
  · obtain ⟨path, fd0, buf, sz0, run, cb0, thj⟩ := s
    cases run
    · simp [stop]
    · cases thj <;> cases buf <;> by_cases hfd : (0:Int) ≤ fd0 <;>
        simp [stop, hfd, List.count_append, List.count_cons, List.count_nil]

/-- C7: evaluation of the layout divergence. The kernel-side (v2.0) and
user-space `GpioIrqEvent` layouts are not identical: user space declares
`pin_state` at byte offset 12 while the kernel record has no such field
(bytes 12..15 are tail padding there — both records are 16 bytes, so the
consumer reads kernel padding as `pin_state`). The kernel-side
`SharedRingBuffer` (4104 bytes, `events` array of 4096 bytes at offset 8)
also differs from the CountsPerSecond_Plot header's, which comments the
`events` array out (8 bytes); only the CountsPerSecond header matches the
kernel ring layout field-for-field. -/
theorem wire_layout_divergence :
    structLayout kernel_GpioIrqEvent_fields ≠ structLayout user_GpioIrqEvent_fields ∧
    (structLayout user_GpioIrqEvent_fields).lookup "pin_state" = some (12, 4) ∧
    (structLayout kernel_GpioIrqEvent_fields).lookup "pin_state" = none ∧
    structSize kernel_GpioIrqEvent_fields = 16 ∧
    structSize user_GpioIrqEvent_fields = 16 ∧
    structLayout kernel_SharedRingBuffer_fields ≠ structLayout plot_SharedRingBuffer_fields ∧
    structSize kernel_SharedRingBuffer_fields = 4104 ∧
    structSize plot_SharedRingBuffer_fields = 8 ∧
    structLayout kernel_SharedRingBuffer_fields = structLayout user_cps_SharedRingBuffer_fields := by
  decide

/-- An environment where every system call succeeds. -/
def envOk : SysEnv := { open_result := some 3, page_size := 4096, mmap_result := some 0 }

/-- An environment where `::open` fails (returns `-1`). -/
def envOpenFail : SysEnv :=
  { open_result := none, page_size := 4096, mmap_result := some 0 }

/-- A listener that started successfully and is running. -/
def runningListener : ListenerState :=
  (start (RpiFastIrq_new "/dev/rp1_gpio_irq") true envOk).2.1

/-- C8 counterexample: the value `start` returns does not distinguish the
two failures. A running listener rejected with "already running" and a
fresh listener whose device open fails both return `false` — equal
values; the two cases differ only in the diagnostic printed. -/
theorem start_return_value_not_distinguishing :
    (start runningListener true envOk).1 =
      (start (RpiFastIrq_new "/dev/rp1_gpio_irq") true envOpenFail).1 ∧
    (start runningListener true envOk).1 = false ∧
    (start runningListener true envOk).2.2 = [LogMsg.alreadyRunning] ∧
    (start (RpiFastIrq_new "/dev/rp1_gpio_irq") true envOpenFail).2.2 =
      [LogMsg.openFailed] := by
  decide

/-- C8 (amended): for every pair of invocations, one failing because the
listener is already running and one failing because the handle cannot be
opened, the values returned to the caller are equal (both `false`): the
`bool` result does not distinguish the two failures. They are
distinguishable only through the diagnostic messages printed to
`std::cerr`, which differ. -/
theorem start_failures_same_return_different_diagnostic
    (s t : ListenerState) (cb cb' : Bool) (e f : SysEnv)
    (hs : s.m_running = true) (ht : t.m_running = false) (hf : f.open_result = none) :
    (start s cb e).1 = false ∧
    (start t cb' f).1 = false ∧
    (start s cb e).1 = (start t cb' f).1 ∧
    (start s cb e).2.2 = [LogMsg.alreadyRunning] ∧
    (start t cb' f).2.2 = [LogMsg.openFailed] ∧
    (start s cb e).2.2 ≠ (start t cb' f).2.2 := by
  refine ⟨?_, ?_, ?_, ?_, ?_, ?_⟩ <;> simp [start, hs, ht, hf]

/-- C8 witness: the amended statement at the concrete pair of
invocations. -/
theorem start_failures_same_return_different_diagnostic_witness :
    (start runningListener true envOk).1 = false ∧
    (start (RpiFastIrq_new "/dev/rp1_gpio_irq") true envOpenFail).1 = false ∧
    (start runningListener true envOk).1 =
      (start (RpiFastIrq_new "/dev/rp1_gpio_irq") true envOpenFail).1 ∧
    (start runningListener true envOk).2.2 = [LogMsg.alreadyRunning] ∧
    (start (RpiFastIrq_new "/dev/rp1_gpio_irq") true envOpenFail).2.2 =
      [LogMsg.openFailed] ∧
    (start runningListener true envOk).2.2 ≠
      (start (RpiFastIrq_new "/dev/rp1_gpio_irq") true envOpenFail).2.2 :=
  start_failures_same_return_different_diagnostic runningListener
    (RpiFastIrq_new "/dev/rp1_gpio_irq") true true envOk envOpenFail
    (by decide) rfl rfl

/-- C9: behaviour of the downstream SPSC queue. When
`head - tail >= Size` (`size_t` arithmetic — the queue is full), `push`
returns `false` and leaves contents and both cursors unchanged (the
newest record is dropped, the caller is never blocked); otherwise `push`
stores the item at slot `head % Size` and advances `head` by one,
returning `true`. `pop` returns nothing on an empty queue
(`tail == head`) and otherwise returns the item at slot `tail % Size`
and advances `tail` by one. -/
theorem lfrb_push_pop (T : Type) (Size : Nat) (b : LockFreeRingBuffer T Size)
    (item : T) (_hh : b.m_head < U64) (_ht : b.m_tail < U64) :
    (Size ≤ (b.m_head + U64 - b.m_tail) % U64 → b.push item = (false, b)) ∧
    ((b.m_head + U64 - b.m_tail) % U64 < Size →
      b.push item =
        (true,
         { b with
           m_data := fun i => if i = b.m_head % Size then item else b.m_data i,
           m_head := (b.m_head + 1) % U64 })) ∧
    (b.m_tail = b.m_head → b.pop = (none, b)) ∧
    (b.m_tail ≠ b.m_head →
      b.pop =
        (some (b.m_data (b.m_tail % Size)),
         { b with m_tail := (b.m_tail + 1) % U64 })) := by
  refine ⟨fun hfull => ?_, fun hroom => ?_, fun hempty => ?_, fun hne => ?_⟩
  · simp [LockFreeRingBuffer.push, hfull]
  · simp [LockFreeRingBuffer.push, Nat.not_le.mpr hroom]
  · simp [LockFreeRingBuffer.pop, hempty]
  · simp [LockFreeRingBuffer.pop, hne]

/-- The queue of `Basic_usage/main.cpp` (`LockFreeRingBuffer<GpioIrqEvent,
1024> g_event_buffer`) in a state with three records admitted and none
consumed. -/
def gEventBuffer : LockFreeRingBuffer GpioIrqEvent 1024 :=
  { m_data := fun _ => default, m_head := 3, m_tail := 0 }

/-- C9 witness: the non-full queue accepts a push, storing at slot
`head % 1024` and advancing `head`. -/
theorem lfrb_push_pop_witness :
    gEventBuffer.push (seqEvent 4) =
      (true,
       { gEventBuffer with
         m_data := fun i =>
           if i = gEventBuffer.m_head % 1024 then seqEvent 4 else gEventBuffer.m_data i,
         m_head := (gEventBuffer.m_head + 1) % U64 }) :=
  (lfrb_push_pop GpioIrqEvent 1024 gEventBuffer (seqEvent 4)
    (by decide) (by decide)).2.1 (by decide)

/-- C10: with an empty callback (`std::function` with no target) the
drain loop still consumes every available record: it invokes nothing, yet
advances the local tail to the observed head — exactly the tail a pass
with a real callback publishes. -/
theorem empty_callback_drain (events : Nat → GpioIrqEvent)
    (local_tail current_head : Nat) (ht : local_tail < U32) (hh : current_head < U32) :
    (drainPass events false local_tail current_head).1 = [] ∧
    (drainPass events false local_tail current_head).2 = current_head ∧
    (drainPass events false local_tail current_head).2 =
      (drainPass events true local_tail current_head).2 := by
  have hf := drainLoop_eq events current_head false U32 local_tail ht hh
    (le_of_lt (dist_lt _ _))
  have htr := drainLoop_eq events current_head true U32 local_tail ht hh
    (le_of_lt (dist_lt _ _))
  refine ⟨?_, ?_, ?_⟩ <;> simp [drainPass, hf, htr]

/-- C10 witness: ten records available, empty callback: no invocation,
and the tail still advances to 10, as with a real callback. -/
theorem empty_callback_drain_witness :
    (drainPass (publishMany emptyRing tenRecords).events false 0 10).1 = [] ∧
    (drainPass (publishMany emptyRing tenRecords).events false 0 10).2 = 10 ∧
    (drainPass (publishMany emptyRing tenRecords).events false 0 10).2 =
      (drainPass (publishMany emptyRing tenRecords).events true 0 10).2 :=
  empty_callback_drain (publishMany emptyRing tenRecords).events 0 10
    (by decide) (by decide)

end RpiFastIrqModel
